import Mathlib

/-!
Shallow embedding of the Botpress MS-Teams channel adapter
(`src/batch-update.ts`, second compilation unit: the `TeamsClient` class,
its payload translators and the outgoing middleware handler), together
with theorems settling the specification claims about it.

Conventions of the embedding:
* JS dictionaries (`_.Dictionary<...>`) are association lists where a
  later assignment shadows earlier entries (`(k, v) :: m`); lookup takes
  the first binding, exactly like property access after assignment.
* A JS value that may be `undefined` is an `Option`; JS truthiness tests
  on such values (`if (convRef)`, `!activity.text`) are translated
  explicitly (an empty string is falsy, an object is truthy).
* Asynchronous methods become pure state-transformers returning, besides
  the new state, a record of the observable effects the claims talk
  about (durable-store reads/writes, adapter invocations, emitted
  events, calls to `next`).
* Exceptions become distinguished constructors of a result type.
-/

namespace Teams

/-- Continuation handle issued by the Bot Framework for a conversation
(`Partial<ConversationReference>` in the source).  Opaque to the client:
only its `conversation.id` component and its identity are used, so it is
embedded as the pair of fields the source reads. -/
structure ConversationReference where
  conversationId : String
  userId : String
deriving DecidableEq, Repr

/-- The slice of a Bot Framework `Activity` the inbound handler reads:
`activity.text` (possibly absent), `activity.from.id`, `activity.type`,
and the conversation id that `TurnContext.getConversationReference`
extracts from it. -/
structure Activity where
  text : Option String
  fromId : String
  type : String
  conversationId : String
deriving DecidableEq, Repr

/-- Model of `TurnContext.getConversationReference(activity)` at the
library's interface boundary: it packages the activity's conversation id
and sender into a continuation handle for that thread. -/
def getConversationReference (activity : Activity) : ConversationReference :=
  { conversationId := activity.conversationId, userId := activity.fromId }

/-- JS truthiness of `activity.text`: `!activity.text` is true exactly
when the field is absent or the empty string. -/
def Activity.hasText (activity : Activity) : Bool :=
  match activity.text with
  | none => false
  | some s => s ≠ ""

/-- In-process dictionary `inMemoryConversationRefs`.  Values are
`Option` because `_getConversationRef` writes back the (possibly
`undefined`) durable-store result. -/
abbrev RefMap := List (String × Option ConversationReference)

/-- Property read on the in-process dictionary, flattened through JS
truthiness: a key bound to `undefined` behaves like an absent key. -/
def RefMap.find (m : RefMap) (k : String) : Option ConversationReference :=
  match m.lookup k with
  | some v => v
  | none => none

/-- State owned by one `TeamsClient`: the in-process mapping and the
durable key-value store (`bp.kvs`), the latter restricted to this
client's `botId` partition and keyed by thread id. -/
structure ClientState where
  inMemoryConversationRefs : RefMap
  kvs : List (String × ConversationReference)
deriving DecidableEq, Repr

/-- Result of `_getConversationRef`: the possibly updated state, the
resolved handle, and whether the durable store was read. -/
structure GetRefResult where
  state : ClientState
  ref : Option ConversationReference
  kvsRead : Bool
deriving DecidableEq, Repr

/-- `TeamsClient._getConversationRef`: return the in-process entry if it
is truthy; on miss read `bp.kvs.get(botId, threadId)`, write the result
(present or not) back into the in-process mapping, and return it. -/
def _getConversationRef (s : ClientState) (threadId : String) : GetRefResult :=
  match RefMap.find s.inMemoryConversationRefs threadId with
  | some convRef => { state := s, ref := some convRef, kvsRead := false }
  | none =>
      let convRef := s.kvs.lookup threadId
      { state := { s with inMemoryConversationRefs := (threadId, convRef) :: s.inMemoryConversationRefs }
        ref := convRef
        kvsRead := true }

/-- Result of `_setConversationRef`: the possibly updated state and
whether the durable store was written. -/
structure SetRefResult where
  state : ClientState
  kvsWritten : Bool
deriving DecidableEq, Repr

/-- `TeamsClient._setConversationRef`: if the in-process mapping already
holds a truthy entry for this thread, do nothing; otherwise write the
handle to both the in-process mapping and the durable store. -/
def _setConversationRef (s : ClientState) (threadId : String)
    (convRef : ConversationReference) : SetRefResult :=
  match RefMap.find s.inMemoryConversationRefs threadId with
  | some _ => { state := s, kvsWritten := false }
  | none =>
      { state := { inMemoryConversationRefs := (threadId, some convRef) :: s.inMemoryConversationRefs
                   kvs := (threadId, convRef) :: s.kvs }
        kvsWritten := true }

/-- The event descriptor passed to `bp.events.sendEvent` by
`_sendIncomingEvent` (the fields of `bp.IO.Event({...})` the handler
fills in; `payload` is `{ text }`, embedded as its `text` field). -/
structure IncomingEvent where
  botId : String
  channel : String
  direction : String
  payloadText : Option String
  preview : Option String
  threadId : String
  target : String
  type : String
deriving DecidableEq, Repr

/-- `TeamsClient._sendIncomingEvent`: build the incoming event descriptor
from the activity and thread id. -/
def _sendIncomingEvent (botId : String) (activity : Activity)
    (threadId : String) : IncomingEvent :=
  { botId := botId
    channel := "teams"
    direction := "incoming"
    payloadText := activity.text
    preview := activity.text
    threadId := threadId
    target := activity.fromId
    type := activity.type }

/-- The per-activity callback registered by `TeamsClient.initialize` on
the `/api/messages` route: extract the conversation reference; if the
activity has no (truthy) text, return with no effect; otherwise record
the reference under the thread id and emit the incoming event.  Returns
the new state and the list of events emitted on the bus. -/
def handleInboundActivity (botId : String) (s : ClientState)
    (activity : Activity) : ClientState × List IncomingEvent :=
  let conversationReference := getConversationReference activity
  if ¬ activity.hasText then
    (s, [])
  else
    let threadId := conversationReference.conversationId
    let s1 := (_setConversationRef s threadId conversationReference).state
    (s1, [_sendIncomingEvent botId activity threadId])

/-- A quick reply entry of `event.payload.quick_replies`. -/
structure Reply where
  title : String
  payload : String
deriving DecidableEq, Repr

/-- A carousel card button (`card.buttons[i]`): a dynamic object read
through its `type` discriminator and the field each branch uses. -/
structure CarouselButton where
  type : String
  title : String
  url : String
  text : String
  payload : String
deriving DecidableEq, Repr

/-- A carousel card (`event.payload.elements[i]`). -/
structure CarouselCard where
  title : String
  picture : String
  buttons : List CarouselButton
deriving DecidableEq, Repr

/-- The dynamic outgoing payload `event.payload`, restricted to the
fields the client inspects: `type`, `text`, `quick_replies` and
`elements`.  An absent or empty `quick_replies` array (both falsy under
`msg.quick_replies && msg.quick_replies.length`) is the empty list. -/
structure Payload where
  type : String
  text : String
  quick_replies : List Reply
  elements : List CarouselCard
deriving DecidableEq, Repr

/-- A `CardAction` as built by the translators: `type`, `value`,
`title`, plus the `text` and `displayText` fields, which some branches
leave undefined. -/
structure CardAction where
  type : String
  value : String
  title : String
  text : Option String
  displayText : Option String
deriving DecidableEq, Repr

/-- A card image (`CardFactory.images` wraps each URL string). -/
structure CardImage where
  url : String
deriving DecidableEq, Repr

/-- Hero-card content assembled by `CardFactory.heroCard`.  The button
list holds `Option CardAction` because the JS arrays the translators
build may contain `undefined` holes (spec §4.2: an unrecognized button
kind yields an undefined action, silently kept in the list). -/
structure HeroCard where
  title : String
  images : List CardImage
  buttons : List (Option CardAction)
deriving DecidableEq, Repr

/-- An attachment as returned by `CardFactory.heroCard`. -/
structure Attachment where
  contentType : String
  content : HeroCard
deriving DecidableEq, Repr

namespace CardFactory

/-- Model of `CardFactory.images` at the library's interface boundary:
wrap each URL string as a card image, preserving order. -/
def images (urls : List String) : List CardImage :=
  urls.map fun u => { url := u }

/-- Model of `CardFactory.actions` at the library's interface boundary
for the object-valued inputs this client passes: the action objects are
carried through unchanged, holes included (spec §4.2). -/
def actions (xs : List (Option CardAction)) : List (Option CardAction) :=
  xs

/-- Model of `CardFactory.heroCard` at the library's interface boundary:
an attachment with the hero-card content type and the given title,
images and buttons. -/
def heroCard (title : String) (images : List CardImage)
    (buttons : List (Option CardAction)) : Attachment :=
  { contentType := "application/vnd.microsoft.card.hero"
    content := { title := title, images := images, buttons := buttons } }

end CardFactory

/-- The button-kind switch inside `_prepareCarouselPayload`'s
`card.buttons.map`: `open_url`, `say_something` and `postback` each
build a card action; any other kind falls off the end of the if/else
chain, so the JS callback returns `undefined` (`none`). -/
def buttonToAction (button : CarouselButton) : Option CardAction :=
  if button.type = "open_url" then
    some { type := "openUrl", value := button.url, title := button.title
           text := none, displayText := none }
  else if button.type = "say_something" then
    some { type := "messageBack", title := button.title, value := button.text
           text := some button.text, displayText := some button.text }
  else if button.type = "postback" then
    some { type := "messageBack", title := button.title, value := button.payload
           text := some button.payload, displayText := none }
  else
    none

/-- The message object built by `_prepareCarouselPayload`. -/
structure CarouselMessage where
  type : String
  attachments : List Attachment
  attachmentLayout : String
deriving DecidableEq, Repr

/-- `TeamsClient._prepareCarouselPayload`: one hero-card attachment per
carousel element, in input order, with the carousel attachment layout
(`AttachmentLayoutTypes.Carousel`, the string "carousel"). -/
def _prepareCarouselPayload (payload : Payload) : CarouselMessage :=
  { type := "message"
    attachments := payload.elements.map fun card =>
      CardFactory.heroCard card.title (CardFactory.images [card.picture])
        (CardFactory.actions (card.buttons.map buttonToAction))
    attachmentLayout := "carousel" }

/-- The message object built by `_prepareChoicePayload`. -/
structure ChoiceMessage where
  text : String
  attachments : List Attachment
deriving DecidableEq, Repr

/-- `TeamsClient._prepareChoicePayload`: the payload text plus a single
hero card with empty title, no images, and one `messageBack` action per
quick reply: display title = reply title, posted value and text = reply
payload, displayed text = reply title. -/
def _prepareChoicePayload (payload : Payload) : ChoiceMessage :=
  { text := payload.text
    attachments := [CardFactory.heroCard "" (CardFactory.images [])
      (CardFactory.actions (payload.quick_replies.map fun reply =>
        some { type := "messageBack", title := reply.title, value := reply.payload
               text := some reply.payload, displayText := some reply.title }))] }

/-- `outgoingTypes`: the event types accepted by `sendOutgoingEvent`
(after `default` is normalized to `text`). -/
def outgoingTypes : List String := ["message", "typing", "carousel", "text"]

/-- The slice of the outgoing `sdk.IO.Event` that `sendOutgoingEvent`
and `outgoingHandler` read: `botId`, `channel`, `type`, `threadId`,
`payload`. -/
structure OutgoingEvent where
  botId : String
  channel : String
  type : String
  threadId : String
  payload : Payload
deriving DecidableEq, Repr

/-- The activity value that ends up passed to
`turnContext.sendActivity`: either one of the three translated shapes or
the original payload sent through unchanged. -/
inductive SentActivity where
  | typingMsg
  | carouselMsg (m : CarouselMessage)
  | choiceMsg (m : ChoiceMessage)
  | passthrough (p : Payload)
deriving DecidableEq, Repr

/-- The payload-shaping chain in `sendOutgoingEvent`: `msg.type ===
'typing'` → a bare typing activity; `msg.type === 'carousel'` → the
carousel translation; otherwise a non-empty `msg.quick_replies` → the
choice translation; otherwise the payload passes through unchanged. -/
def shapeOutgoingPayload (p : Payload) : SentActivity :=
  if p.type = "typing" then .typingMsg
  else if p.type = "carousel" then .carouselMsg (_prepareCarouselPayload p)
  else if p.quick_replies.length ≠ 0 then .choiceMsg (_prepareChoicePayload p)
  else .passthrough p

/-- Observable outcome of one `sendOutgoingEvent` call. -/
inductive SendOutcome where
  /-- `throw new Error('Unsupported event type: ' + event.type)`. -/
  | unsupportedType (eventType : String)
  /-- No conversation reference: a warning naming the thread is logged
  and the method returns normally. -/
  | noRefWarning (threadId : String)
  /-- The shaped activity was delivered through the adapter. -/
  | delivered (msg : SentActivity)
  /-- `sendActivity` failed: the error is logged and re-thrown. -/
  | deliveryFailed (msg : SentActivity) (err : String)
deriving DecidableEq, Repr

/-- The error `sendOutgoingEvent` throws at its caller for a given
outcome, if any. -/
def SendOutcome.thrownError : SendOutcome → Option String
  | .unsupportedType t => some ("Unsupported event type: " ++ t)
  | .deliveryFailed _ err => some err
  | _ => none

/-- What one `sendOutgoingEvent` invocation did: resulting state,
outcome, whether the durable store was read, and whether the adapter's
continuation mechanism (`continueConversation`) was invoked. -/
structure SendResult where
  state : ClientState
  outcome : SendOutcome
  kvsRead : Bool
  adapterInvoked : Bool
deriving DecidableEq, Repr

/-- `TeamsClient.sendOutgoingEvent`, parameterized by the external
adapter's delivery behavior `deliver` (what `turnContext.sendActivity`
does with the shaped activity): normalize `default` to `text`; throw on
a type outside `outgoingTypes`; resolve the conversation reference and,
when absent, log a warning and return; otherwise shape the payload and
deliver it through `continueConversation`, re-throwing any delivery
error after logging it. -/
def sendOutgoingEvent (deliver : SentActivity → Except String Unit)
    (s : ClientState) (event : OutgoingEvent) : SendResult :=
  let messageType := if event.type = "default" then "text" else event.type
  if ¬ outgoingTypes.contains messageType then
    { state := s, outcome := .unsupportedType event.type
      kvsRead := false, adapterInvoked := false }
  else
    let r := _getConversationRef s event.threadId
    match r.ref with
    | none =>
        { state := r.state, outcome := .noRefWarning event.threadId
          kvsRead := r.kvsRead, adapterInvoked := false }
    | some _ =>
        let msg := shapeOutgoingPayload event.payload
        match deliver msg with
        | .ok _ =>
            { state := r.state, outcome := .delivered msg
              kvsRead := r.kvsRead, adapterInvoked := true }
        | .error err =>
            { state := r.state, outcome := .deliveryFailed msg err
              kvsRead := r.kvsRead, adapterInvoked := true }

/-- One invocation of the middleware `next` callback: the optional error
(first argument) and the optional boolean continuation flag (second
argument).  `next()` is `⟨none, none⟩`, `next(err)` is `⟨some err,
none⟩`, `next(undefined, false)` is `⟨none, some false⟩`. -/
structure NextCall where
  error : Option String
  continueFlag : Option Bool
deriving DecidableEq, Repr

/-- `outgoingHandler`, parameterized by whether `clients[event.botId]`
exists and by the adapter behavior: events for another channel, or for a
bot with no client, are passed on with a bare `next()`; otherwise
`sendOutgoingEvent` runs, `next(err)` is called if it threw, and then —
unconditionally — `next(undefined, false)` is called.  Returns the new
state and the ordered list of `next` invocations. -/
def outgoingHandler (clientRegistered : Bool)
    (deliver : SentActivity → Except String Unit)
    (s : ClientState) (event : OutgoingEvent) : ClientState × List NextCall :=
  if event.channel ≠ "teams" then
    (s, [{ error := none, continueFlag := none }])
  else if ¬ clientRegistered then
    (s, [{ error := none, continueFlag := none }])
  else
    let r := sendOutgoingEvent deliver s event
    match r.outcome.thrownError with
    | some err =>
        (r.state, [{ error := some err, continueFlag := none },
                   { error := none, continueFlag := some false }])
    | none =>
        (r.state, [{ error := none, continueFlag := some false }])

@[simp]
theorem RefMap.find_cons_self (m : RefMap) (k : String)
    (v : Option ConversationReference) : RefMap.find ((k, v) :: m) k = v := by
  simp [RefMap.find, List.lookup]

end Teams

open Teams

/-- C4: with no prior in-process entry for `id`, `record(id, h1)` writes
both tiers; a subsequent `record(id, h2)` in the same process is a no-op
(state unchanged, no durable write), and `resolve(id)` still returns
`h1`, not `h2` — first-write-wins per process lifetime. -/
theorem record_first_write_wins (s : ClientState) (id : String)
    (h1 h2 : ConversationReference)
    (hmem : RefMap.find s.inMemoryConversationRefs id = none) :
    (_setConversationRef s id h1).kvsWritten = true ∧
    (_setConversationRef (_setConversationRef s id h1).state id h2).state
      = (_setConversationRef s id h1).state ∧
    (_setConversationRef (_setConversationRef s id h1).state id h2).kvsWritten = false ∧
    (_getConversationRef
      (_setConversationRef (_setConversationRef s id h1).state id h2).state id).ref
      = some h1 := by
  simp [_setConversationRef, _getConversationRef, hmem]

/-- Closed instance of `record_first_write_wins` at a concrete state. -/
theorem record_first_write_wins_witness :
    RefMap.find (ClientState.mk [] []).inMemoryConversationRefs "t1" = none ∧
    (_getConversationRef
      (_setConversationRef
        (_setConversationRef (ClientState.mk [] []) "t1" ⟨"t1", "alice"⟩).state
        "t1" ⟨"t1", "bob"⟩).state "t1").ref = some ⟨"t1", "alice"⟩ :=
  ⟨by decide, (record_first_write_wins (ClientState.mk [] []) "t1"
      ⟨"t1", "alice"⟩ ⟨"t1", "bob"⟩ (by decide)).2.2.2⟩

/-- C5: when the handle is only in the durable store (in-process miss),
`resolve(id)` reads the store, returns the stored handle and populates
the in-process mapping; resolving again from the resulting state returns
the same handle from the in-process tier, without a store read and
without changing the state (hence every later resolve behaves the
same). -/
theorem resolve_store_only (s : ClientState) (id : String)
    (h : ConversationReference)
    (hmem : RefMap.find s.inMemoryConversationRefs id = none)
    (hkvs : s.kvs.lookup id = some h) :
    (_getConversationRef s id).ref = some h ∧
    (_getConversationRef s id).kvsRead = true ∧
    RefMap.find (_getConversationRef s id).state.inMemoryConversationRefs id = some h ∧
    _getConversationRef (_getConversationRef s id).state id
      = { state := (_getConversationRef s id).state, ref := some h, kvsRead := false } := by
  simp [_getConversationRef, hmem, hkvs]

/-- Closed instance of `resolve_store_only` at a concrete state with a
durable-store-only entry. -/
theorem resolve_store_only_witness :
    (_getConversationRef (ClientState.mk [] [("t9", ⟨"t9", "carol"⟩)]) "t9").ref
      = some ⟨"t9", "carol"⟩ ∧
    (_getConversationRef
      (_getConversationRef (ClientState.mk [] [("t9", ⟨"t9", "carol"⟩)]) "t9").state
      "t9").kvsRead = false :=
  ⟨(resolve_store_only (ClientState.mk [] [("t9", ⟨"t9", "carol"⟩)]) "t9"
      ⟨"t9", "carol"⟩ (by decide) (by decide)).1,
   by
    have h := (resolve_store_only (ClientState.mk [] [("t9", ⟨"t9", "carol"⟩)]) "t9"
      ⟨"t9", "carol"⟩ (by decide) (by decide)).2.2.2
    rw [h]⟩

/-- C6: an inbound activity whose text is absent or empty is dropped by
the callback: no incoming event is emitted and neither the in-process
mapping nor the durable store is written (the state is unchanged). -/
theorem inbound_no_text_dropped (botId : String) (s : ClientState)
    (activity : Activity)
    (h : activity.text = none ∨ activity.text = some "") :
    handleInboundActivity botId s activity = (s, []) := by
  have htxt : activity.hasText = false := by
    rcases h with h | h <;> simp [Activity.hasText, h]
  simp [handleInboundActivity, htxt]

/-- Closed instance of `inbound_no_text_dropped` at a concrete
empty-text activity and a concrete state. -/
theorem inbound_no_text_dropped_witness :
    ((Activity.mk (some "") "alice" "message" "t1").text = none ∨
      (Activity.mk (some "") "alice" "message" "t1").text = some "") ∧
    handleInboundActivity "bot1" (ClientState.mk [] [])
      (Activity.mk (some "") "alice" "message" "t1") = (ClientState.mk [] [], []) :=
  ⟨by decide,
   inbound_no_text_dropped "bot1" (ClientState.mk [] [])
     (Activity.mk (some "") "alice" "message" "t1") (by decide)⟩

/-- C2: the carousel translator produces one attachment per input card,
in input order (attachment `i` is built from element `i`); in the
two-card instance where each card has a single `open_url` button, the
attachment list has length 2 and each attachment carries exactly one
open-link (`openUrl`) action whose value is that button's URL and whose
title is that button's title. -/
theorem carousel_one_attachment_per_card (p : Payload)
    (ct1 pic1 bt1 url1 ct2 pic2 bt2 url2 : String) :
    ((_prepareCarouselPayload p).attachments.length = p.elements.length ∧
      ∀ i : Nat, (_prepareCarouselPayload p).attachments.get? i
        = (p.elements.get? i).map fun card =>
            CardFactory.heroCard card.title (CardFactory.images [card.picture])
              (CardFactory.actions (card.buttons.map buttonToAction))) ∧
    (_prepareCarouselPayload
        (Payload.mk "carousel" ""
          [] [CarouselCard.mk ct1 pic1 [CarouselButton.mk "open_url" bt1 url1 "" ""],
              CarouselCard.mk ct2 pic2 [CarouselButton.mk "open_url" bt2 url2 "" ""]])).attachments.length = 2 ∧
    ((_prepareCarouselPayload
        (Payload.mk "carousel" ""
          [] [CarouselCard.mk ct1 pic1 [CarouselButton.mk "open_url" bt1 url1 "" ""],
              CarouselCard.mk ct2 pic2 [CarouselButton.mk "open_url" bt2 url2 "" ""]])).attachments.map
        fun a => a.content.buttons)
      = [[some (CardAction.mk "openUrl" url1 bt1 none none)],
         [some (CardAction.mk "openUrl" url2 bt2 none none)]] := by
  refine ⟨⟨by simp [_prepareCarouselPayload], fun i => ?_⟩, rfl, ?_⟩
  · simp [_prepareCarouselPayload, List.get?_eq_getElem?]
  · simp [_prepareCarouselPayload, CardFactory.heroCard, CardFactory.actions,
      buttonToAction]

/-- C3: the quick-replies translator keeps the message text and builds
exactly one card with empty title and no images, whose action list has
one entry per reply in input order with display title = reply title,
posted value = reply payload, posted text = reply payload and displayed
text = reply title; in particular replies Yes/yes and No/no yield two
actions titled "Yes"/"No" posting "yes"/"no". -/
theorem choice_single_card_actions (p : Payload) :
    ((_prepareChoicePayload p).text = p.text ∧
      (_prepareChoicePayload p).attachments.length = 1 ∧
      ∀ a ∈ (_prepareChoicePayload p).attachments,
        a.content.title = "" ∧ a.content.images = [] ∧
        a.content.buttons = p.quick_replies.map fun reply =>
          some (CardAction.mk "messageBack" reply.payload reply.title
            (some reply.payload) (some reply.title))) ∧
    ((_prepareChoicePayload
        (Payload.mk "text" "pick" [Reply.mk "Yes" "yes", Reply.mk "No" "no"] [])).attachments.map
        fun a => a.content.buttons)
      = [[some (CardAction.mk "messageBack" "yes" "Yes" (some "yes") (some "Yes")),
          some (CardAction.mk "messageBack" "no" "No" (some "no") (some "No"))]] := by
  refine ⟨⟨rfl, rfl, ?_⟩, rfl⟩
  intro a ha
  simp [_prepareChoicePayload, CardFactory.heroCard, CardFactory.actions,
    CardFactory.images] at ha
  subst ha
  simp [List.map_map]

/-- C9: a carousel button whose kind is none of `open_url`,
`say_something`, `postback` translates to `undefined` (`none`), and the
surrounding carousel still translates (the map raises no error): the
card's action list keeps one entry per button with a `none` hole at the
unknown button's position, and the carousel message is otherwise intact
(type "message", carousel layout, one attachment for the card). -/
theorem unknown_button_kind_hole (b : CarouselButton)
    (h1 : b.type ≠ "open_url") (h2 : b.type ≠ "say_something")
    (h3 : b.type ≠ "postback")
    (ct pic : String) (pre post : List CarouselButton) :
    buttonToAction b = none ∧
    (let msg := _prepareCarouselPayload
        (Payload.mk "carousel" "" [] [CarouselCard.mk ct pic (pre ++ b :: post)]);
     msg.type = "message" ∧ msg.attachmentLayout = "carousel" ∧
     (msg.attachments.map fun a => a.content.buttons)
       = [pre.map buttonToAction ++ none :: post.map buttonToAction]) := by
  have hb : buttonToAction b = none := by
    simp [buttonToAction, h1, h2, h3]
  refine ⟨hb, rfl, rfl, ?_⟩
  simp [_prepareCarouselPayload, CardFactory.heroCard, CardFactory.actions, hb]

/-- Closed instance of `unknown_button_kind_hole`: a `web_url` button
between two known buttons yields a `none` hole in the middle of the
action list. -/
theorem unknown_button_kind_hole_witness :
    (CarouselButton.mk "web_url" "See" "http://x" "" "").type ≠ "open_url" ∧
    ((_prepareCarouselPayload
        (Payload.mk "carousel" "" []
          [CarouselCard.mk "c" "pic"
            [CarouselButton.mk "open_url" "Go" "http://go" "" "",
             CarouselButton.mk "web_url" "See" "http://x" "" "",
             CarouselButton.mk "postback" "Do" "" "" "did"]])).attachments.map
        fun a => a.content.buttons)
      = [[some (CardAction.mk "openUrl" "http://go" "Go" none none), none,
          some (CardAction.mk "messageBack" "did" "Do" (some "did") none)]] :=
  ⟨by decide, by
    have h := (unknown_button_kind_hole (CarouselButton.mk "web_url" "See" "http://x" "" "")
      (by decide) (by decide) (by decide) "c" "pic"
      [CarouselButton.mk "open_url" "Go" "http://go" "" ""]
      [CarouselButton.mk "postback" "Do" "" "" "did"]).2.2.2
    simpa [buttonToAction] using h⟩

/-- C1: when the event's message kind — `event.type` after the code's
`default → text` normalization — is not one of message, typing,
carousel, text, `sendOutgoingEvent` throws the unsupported-event-type
error: the state is untouched, the durable store is not read, and the
adapter's continuation mechanism is never invoked, whatever the
adapter's behavior. -/
theorem unsupported_type_rejected (deliver : SentActivity → Except String Unit)
    (s : ClientState) (event : OutgoingEvent)
    (h : outgoingTypes.contains
        (if event.type = "default" then "text" else event.type) = false) :
    sendOutgoingEvent deliver s event
      = { state := s, outcome := .unsupportedType event.type
          kvsRead := false, adapterInvoked := false } ∧
    (sendOutgoingEvent deliver s event).outcome.thrownError
      = some ("Unsupported event type: " ++ event.type) := by
  have h' : (if event.type = "default" then "text" else event.type) ∉ outgoingTypes := by
    simpa using h
  constructor <;> simp [sendOutgoingEvent, h', SendOutcome.thrownError]

/-- Closed instance of `unsupported_type_rejected`: an `image` event is
rejected with no adapter invocation. -/
theorem unsupported_type_rejected_witness :
    outgoingTypes.contains
      (if (OutgoingEvent.mk "bot1" "teams" "image" "t1"
            (Payload.mk "image" "" [] [])).type = "default" then "text"
       else (OutgoingEvent.mk "bot1" "teams" "image" "t1"
            (Payload.mk "image" "" [] [])).type) = false ∧
    sendOutgoingEvent (fun _ => Except.ok ()) (ClientState.mk [] [])
      (OutgoingEvent.mk "bot1" "teams" "image" "t1" (Payload.mk "image" "" [] []))
      = { state := ClientState.mk [] [], outcome := .unsupportedType "image"
          kvsRead := false, adapterInvoked := false } :=
  ⟨by decide,
   (unsupported_type_rejected (fun _ => Except.ok ()) (ClientState.mk [] [])
     (OutgoingEvent.mk "bot1" "teams" "image" "t1" (Payload.mk "image" "" [] []))
     (by decide)).1⟩

/-- C7: for a supported event type whose thread has no conversation
reference in either tier (in-process miss and durable-store miss),
`sendOutgoingEvent` ends in the logged-warning outcome naming the
thread, throws nothing, and never invokes the adapter. -/
theorem missing_ref_warns (deliver : SentActivity → Except String Unit)
    (s : ClientState) (event : OutgoingEvent)
    (htype : outgoingTypes.contains
        (if event.type = "default" then "text" else event.type) = true)
    (hmem : RefMap.find s.inMemoryConversationRefs event.threadId = none)
    (hkvs : s.kvs.lookup event.threadId = none) :
    (sendOutgoingEvent deliver s event).outcome = .noRefWarning event.threadId ∧
    (sendOutgoingEvent deliver s event).outcome.thrownError = none ∧
    (sendOutgoingEvent deliver s event).adapterInvoked = false := by
  have h' : (if event.type = "default" then "text" else event.type) ∈ outgoingTypes := by
    simpa using htype
  have hr : (_getConversationRef s event.threadId).ref = none := by
    simp [_getConversationRef, hmem, hkvs]
  simp [sendOutgoingEvent, h', hr, SendOutcome.thrownError]

/-- Closed instance of `missing_ref_warns`: a text event for an unknown
thread resolves to the warning outcome without an adapter call. -/
theorem missing_ref_warns_witness :
    RefMap.find (ClientState.mk [] []).inMemoryConversationRefs "t7" = none ∧
    (sendOutgoingEvent (fun _ => Except.ok ()) (ClientState.mk [] [])
      (OutgoingEvent.mk "bot1" "teams" "text" "t7"
        (Payload.mk "text" "hello" [] []))).outcome = .noRefWarning "t7" :=
  ⟨by decide,
   (missing_ref_warns (fun _ => Except.ok ()) (ClientState.mk [] [])
     (OutgoingEvent.mk "bot1" "teams" "text" "t7" (Payload.mk "text" "hello" [] []))
     (by decide) (by decide) (by decide)).1⟩

/-- C10: an outgoing event of type `default` is not rejected: the code
maps `default` to `text` before the supported-kind check, so the call
behaves exactly as for the same event with type `text` (a fifth accepted
type), and its outcome is never the unsupported-type error. -/
theorem default_type_accepted (deliver : SentActivity → Except String Unit)
    (s : ClientState) (event : OutgoingEvent)
    (h : event.type = "default") :
    sendOutgoingEvent deliver s event
      = sendOutgoingEvent deliver s { event with type := "text" } ∧
    ∀ t, (sendOutgoingEvent deliver s event).outcome
      ≠ SendOutcome.unsupportedType t := by
  obtain ⟨b, c, ty, th, p⟩ := event
  cases h
  refine ⟨rfl, fun t => ?_⟩
  unfold sendOutgoingEvent
  simp only [outgoingTypes]
  cases h1 : (_getConversationRef s th).ref with
  | none => simp [h1]
  | some r =>
      cases h2 : deliver (shapeOutgoingPayload p) with
      | ok u => simp [h1, h2]
      | error e => simp [h1, h2]

/-- Closed instance of `default_type_accepted`: a `default` event equals
its `text` counterpart and is not rejected. -/
theorem default_type_accepted_witness :
    (OutgoingEvent.mk "bot1" "teams" "default" "t1"
      (Payload.mk "text" "hi" [] [])).type = "default" ∧
    sendOutgoingEvent (fun _ => Except.ok ()) (ClientState.mk [] [])
      (OutgoingEvent.mk "bot1" "teams" "default" "t1" (Payload.mk "text" "hi" [] []))
      = sendOutgoingEvent (fun _ => Except.ok ()) (ClientState.mk [] [])
        (OutgoingEvent.mk "bot1" "teams" "text" "t1" (Payload.mk "text" "hi" [] [])) :=
  ⟨rfl,
   (default_type_accepted (fun _ => Except.ok ()) (ClientState.mk [] [])
     (OutgoingEvent.mk "bot1" "teams" "default" "t1" (Payload.mk "text" "hi" [] []))
     rfl).1⟩

/-- C8 counterexample: with a registered client, a teams `text` event, a
cached conversation reference, and an adapter whose delivery fails, the
handler invokes `next` twice — `next(err)` from the catch block and then
the unconditional `next(undefined, false)` — so "calls next exactly
once" fails on the delivery-failure path. -/
theorem outgoingHandler_double_next :
    (outgoingHandler true (fun _ => Except.error "NetworkTimeout")
      (ClientState.mk [("t1", some ⟨"t1", "u"⟩)] [])
      (OutgoingEvent.mk "bot1" "teams" "text" "t1"
        (Payload.mk "text" "hi" [] []))).2
      = [{ error := some "NetworkTimeout", continueFlag := none },
         { error := none, continueFlag := some false }] ∧
    ¬ (outgoingHandler true (fun _ => Except.error "NetworkTimeout")
      (ClientState.mk [("t1", some ⟨"t1", "u"⟩)] [])
      (OutgoingEvent.mk "bot1" "teams" "text" "t1"
        (Payload.mk "text" "hi" [] []))).2.length = 1 := by
  decide

/-- C8 amended: the handler calls `next` exactly once with no arguments
when the channel is not teams or no client is registered, and exactly
once with `(undefined, false)` when `sendOutgoingEvent` returns normally
(delivery succeeded or missing-reference warning); but when
`sendOutgoingEvent` throws (unsupported type or delivery failure) it
calls `next` twice: first with the caught error, then with
`(undefined, false)`. -/
theorem outgoingHandler_next_calls (clientRegistered : Bool)
    (deliver : SentActivity → Except String Unit)
    (s : ClientState) (event : OutgoingEvent) :
    (event.channel ≠ "teams" ∨ clientRegistered = false →
      (outgoingHandler clientRegistered deliver s event).2
        = [{ error := none, continueFlag := none }]) ∧
    (event.channel = "teams" → clientRegistered = true →
      ((sendOutgoingEvent deliver s event).outcome.thrownError = none →
        (outgoingHandler clientRegistered deliver s event).2
          = [{ error := none, continueFlag := some false }]) ∧
      ∀ err, (sendOutgoingEvent deliver s event).outcome.thrownError = some err →
        (outgoingHandler clientRegistered deliver s event).2
          = [{ error := some err, continueFlag := none },
             { error := none, continueFlag := some false }]) := by
  constructor
  · rintro (h | h)
    · simp [outgoingHandler, h]
    · by_cases hch : event.channel = "teams"
      · simp [outgoingHandler, hch, h]
      · simp [outgoingHandler, hch]
  · intro hch hreg
    subst hreg
    constructor
    · intro hnone
      simp [outgoingHandler, hch, hnone]
    · intro err herr
      simp [outgoingHandler, hch, herr]

/-- Closed instance of `outgoingHandler_next_calls` on the successful
delivery path: exactly one `next(undefined, false)` call. -/
theorem outgoingHandler_next_calls_witness :
    (OutgoingEvent.mk "bot1" "teams" "text" "t1"
      (Payload.mk "text" "hi" [] [])).channel = "teams" ∧
    (outgoingHandler true (fun _ => Except.ok ())
      (ClientState.mk [("t1", some ⟨"t1", "u"⟩)] [])
      (OutgoingEvent.mk "bot1" "teams" "text" "t1" (Payload.mk "text" "hi" [] []))).2
      = [{ error := none, continueFlag := some false }] :=
  ⟨rfl,
   ((outgoingHandler_next_calls true (fun _ => Except.ok ())
      (ClientState.mk [("t1", some ⟨"t1", "u"⟩)] [])
      (OutgoingEvent.mk "bot1" "teams" "text" "t1"
        (Payload.mk "text" "hi" [] []))).2 rfl rfl).1 (by decide)⟩
